import Mathlib

/-!
Shallow embedding of the hybrid-ocr job lifecycle coordination protocol:
the worker coordination loop (src/hybrid-ocr-worker/aws_worker.py) and the
submission/status API (src/hybrid-ocr-api/app.py).

External collaborators are modelled as explicit state: the DynamoDB record
for one job as `Option Record` (the table is keyed by `job_id`; every call
in both programs addresses a single key, so the per-key view suffices), the
S3 blob store as the list of keys present (both programs use a single
bucket), and the SQS acknowledgement (`delete_message`) as an event.  Every
fallible network call whose outcome the Python code distinguishes (head,
conditional claim, download, upload, status writes, the compensation
delete, the enqueue) is driven by an oracle field of an environment
structure, so theorems quantify over all infrastructure behaviours the code
can observe; the queue receive/delete calls themselves are taken reliable,
as the spec assumes of the Work Queue collaborator.
-/

namespace HybridOcr

/-- Job status, §3 of the spec and the string constants in both sources. -/
inductive Status where
  | QUEUED
  | PROCESSING
  | DONE
  | FAILED
deriving DecidableEq, Repr

/-- A DynamoDB job item.  `update_item` without a condition creates the item
when absent, so every field the two programs do not always write is
optional. -/
structure Record where
  status : Status
  worker_id : Option String := none
  processing_started_at : Option Int := none
  created_at : Option Int := none
  updated_at : Int
  input_s3_key : Option String := none
  result_s3_key : Option String := none
  original_filename : Option String := none
  content_type : Option String := none
  duration_ms : Option Int := none
  error_message : Option String := none
deriving DecidableEq, Repr

/-- The SQS message body produced by `create_job` and read by the worker. -/
structure Msg where
  job_id : String
  bucket : String
  input_key : String
  result_key : String
deriving DecidableEq, Repr

/-- S3 put: the blob store is the set of keys present. -/
def putKey (k : String) (l : List String) : List String :=
  if k ∈ l then l else k :: l

/-- S3 delete_object: removes the key. -/
def delKey (k : String) (l : List String) : List String :=
  l.filter (fun x => x != k)

def statusOf (s : Option Record) : Option Status :=
  s.map (fun r => r.status)

/-- Embedding of `claim_job` (aws_worker.py:21-46) as the store sees it: DynamoDB
`update_item` with condition `status = QUEUED`; sets status, worker_id,
processing_started_at, updated_at.  Returns whether the condition held
(True) or `ConditionalCheckFailedException` was raised (False); a missing
item fails the attribute condition. -/
def claim_job_cas (w : String) (t : Int) (store : Option Record) :
    Bool × Option Record :=
  match store with
  | some r =>
      if r.status = Status.QUEUED then
        (true, some { r with
          status := Status.PROCESSING
          worker_id := some w
          processing_started_at := some t
          updated_at := t })
      else (false, some r)
  | none => (false, none)

/-- Embedding of `ddb_set_status` (aws_worker.py:48-79): unconditional `update_item`
setting status and updated_at, merging the extra fields the two call sites
ever pass (`duration_ms`, `error_message`); a None value is skipped, and an
absent item would be created (DynamoDB upsert). -/
def ddb_set_status (new_status : Status) (duration_ms : Option Int)
    (error_message : Option String) (t : Int) (store : Option Record) :
    Option Record :=
  match store with
  | some r =>
      some { r with
        status := new_status
        updated_at := t
        duration_ms := match duration_ms with
          | some d => some d
          | none => r.duration_ms
        error_message := match error_message with
          | some e => some e
          | none => r.error_message }
  | none =>
      some { status := new_status, updated_at := t
             duration_ms := duration_ms, error_message := error_message }

/-- A sequence of claim attempts for the same job, in the order the store
serializes the conditional updates; returns each attempt's boolean result
and the final record. -/
def runClaims : List (String × Int) → Option Record → List Bool × Option Record
  | [], s => ([], s)
  | (w, t) :: rest, s =>
      let c := claim_job_cas w t s
      let tail := runClaims rest c.2
      (c.1 :: tail.1, tail.2)

/-- Every record state the store passes through during a run of claims
(initial state included). -/
def claimStates : List (String × Int) → Option Record → List (Option Record)
  | [], s => [s]
  | (w, t) :: rest, s => s :: claimStates rest (claim_job_cas w t s).2

/-- Worker `w` holds the claim on the job: the record says PROCESSING with
`worker_id = w`. -/
def holdsProcessing (s : Option Record) (w : String) : Prop :=
  ∃ r, s = some r ∧ r.status = Status.PROCESSING ∧ r.worker_id = some w

theorem holdsProcessing_unique (s : Option Record) (w1 w2 : String)
    (h1 : holdsProcessing s w1) (h2 : holdsProcessing s w2) : w1 = w2 := by
  obtain ⟨r1, hr1, -, hw1⟩ := h1
  obtain ⟨r2, hr2, -, hw2⟩ := h2
  rw [hr1] at hr2
  injection hr2 with h
  subst h
  rw [hw1] at hw2
  injection hw2

theorem runClaims_nonqueued (ws : List (String × Int)) (s : Option Record)
    (h : statusOf s ≠ some Status.QUEUED) :
    runClaims ws s = (List.replicate ws.length false, s) := by
  induction ws with
  | nil => simp [runClaims]
  | cons wt rest ih =>
      obtain ⟨w, t⟩ := wt
      have hc : claim_job_cas w t s = (false, s) := by
        cases s with
        | none => simp [claim_job_cas]
        | some r =>
            have : r.status ≠ Status.QUEUED := by
              intro hq
              exact h (by simp [statusOf, hq])
            simp [claim_job_cas, this]
      simp [runClaims, hc, ih, List.replicate]

/-- Claim C1: among any N ≥ 1 serialized claim attempts on a QUEUED job,
exactly one returns true, the other N-1 return false, and at every state the
store passes through, at most one worker holds status = PROCESSING. -/
theorem claim_race_exactly_one (ws : List (String × Int)) (s : Option Record)
    (r : Record) (hs : s = some r) (hq : r.status = Status.QUEUED)
    (hne : ws ≠ []) :
    ((runClaims ws s).1.count true = 1) ∧
    ((runClaims ws s).1.count false = ws.length - 1) ∧
    (∀ st ∈ claimStates ws s, ∀ w1 w2,
      holdsProcessing st w1 → holdsProcessing st w2 → w1 = w2) := by
  refine ⟨?_, ?_, ?_⟩
  · cases ws with
    | nil => exact absurd rfl hne
    | cons wt rest =>
        obtain ⟨w, t⟩ := wt
        subst hs
        have hc : (claim_job_cas w t (some r)).1 = true ∧
            statusOf (claim_job_cas w t (some r)).2 = some Status.PROCESSING := by
          simp [claim_job_cas, hq, statusOf]
        have htail := runClaims_nonqueued rest (claim_job_cas w t (some r)).2
          (by rw [hc.2]; simp)
        simp [runClaims, htail, hc.1, List.count_replicate]
  · cases ws with
    | nil => exact absurd rfl hne
    | cons wt rest =>
        obtain ⟨w, t⟩ := wt
        subst hs
        have hc : (claim_job_cas w t (some r)).1 = true ∧
            statusOf (claim_job_cas w t (some r)).2 = some Status.PROCESSING := by
          simp [claim_job_cas, hq, statusOf]
        have htail := runClaims_nonqueued rest (claim_job_cas w t (some r)).2
          (by rw [hc.2]; simp)
        simp [runClaims, htail, hc.1, List.count_replicate]
  · intro st _ w1 w2 h1 h2
    exact holdsProcessing_unique st w1 w2 h1 h2

/-- Witness for C1: two concurrent claimers on a fresh QUEUED record. -/
theorem claim_race_exactly_one_witness :
    ([("w1", (1 : Int)), ("w2", 2)] : List (String × Int)) ≠ [] ∧
    ((runClaims [("w1", (1 : Int)), ("w2", 2)]
        (some { status := Status.QUEUED, updated_at := 0 })).1.count true = 1) :=
  ⟨by decide,
   (claim_race_exactly_one [("w1", (1 : Int)), ("w2", 2)] _
     { status := Status.QUEUED, updated_at := 0 } rfl rfl (by decide)).1⟩

/-- A record write as issued to the store: previous status, new status, and
the extra fields; worker writes also snapshot the blob store at the instant
of the write. -/
structure WriteEv where
  old : Option Status
  new : Status
  dur : Option Int := none
  err : Option String := none
deriving DecidableEq, Repr

/-- Observable events of one worker-loop iteration, in execution order.
`head`/`claim` carry `none` when the call raised a non-condition error;
`writeErr st` marks a status write of `st` that raised. -/
inductive Ev where
  | head (res : Option Bool)
  | claim (res : Option Bool)
  | download (ok : Bool)
  | uploadRes (ok : Bool)
  | write (w : WriteEv) (blobsNow : List String)
  | writeErr (st : Status)
  | ack
deriving DecidableEq, Repr

/-- Oracle for one worker-loop iteration: the identity and clock readings of
this worker and the outcome of each fallible call (`true` = the call raised
an infrastructure error; for `download` this is any raised error beyond the
missing input key, which the model reads off the blob store). -/
structure WEnv where
  workerId : String
  headFail : Bool
  claimFail : Bool
  downloadFail : Bool
  downloadExc : String × String
  uploadFail : Bool
  uploadExc : String × String
  setDoneFail : Bool
  setDoneExc : String × String
  setFailedFail : Bool
  tClaim : Int
  t0 : Int
  t1 : Int
  tDoneW : Int
  tFailW : Int
deriving Repr

/-- The error descriptor format the worker stamps on failures:
type name, colon, message. -/
def fmtExc (e : String × String) : String :=
  e.1 ++ ": " ++ e.2

/-- Result of one worker-loop iteration.  `crashed` means an exception
propagated out of the iteration (the process dies and is restarted). -/
structure WOut where
  store : Option Record
  blobs : List String
  trace : List Ev
  acked : Bool
  crashed : Bool
deriving Repr

/-- The `except Exception` handler of the processing block
(aws_worker.py:171-177): best-effort FAILED write (its own failure is
swallowed), then ack. -/
def failRecord (env : WEnv) (err : String) (store : Option Record)
    (blobs : List String) (pre : List Ev) : WOut :=
  if env.setFailedFail then
    { store := store, blobs := blobs
      trace := pre ++ [Ev.writeErr Status.FAILED, Ev.ack]
      acked := true, crashed := false }
  else
    { store := ddb_set_status Status.FAILED none (some err) env.tFailW store
      blobs := blobs
      trace := pre ++
        [Ev.write ⟨statusOf store, Status.FAILED, none, some err⟩ blobs, Ev.ack]
      acked := true, crashed := false }

/-- The processing block after a won claim (aws_worker.py:150-169):
download the input, run the (never-raising) placeholder OCR, upload the
result to `result_key`, write DONE with `duration_ms`, ack; any raise in
the block falls to `failRecord`. -/
def processJob (env : WEnv) (msg : Msg) (store : Option Record)
    (blobs : List String) (pre : List Ev) : WOut :=
  if env.downloadFail ∨ msg.input_key ∉ blobs then
    failRecord env (fmtExc env.downloadExc) store blobs
      (pre ++ [Ev.download false])
  else
    let duration : Int := env.t1 - env.t0
    if env.uploadFail then
      failRecord env (fmtExc env.uploadExc) store blobs
        (pre ++ [Ev.download true, Ev.uploadRes false])
    else
      let blobs' := putKey msg.result_key blobs
      if env.setDoneFail then
        failRecord env (fmtExc env.setDoneExc) store blobs'
          (pre ++ [Ev.download true, Ev.uploadRes true, Ev.writeErr Status.DONE])
      else
        { store := ddb_set_status Status.DONE (some duration) none env.tDoneW store
          blobs := blobs'
          trace := pre ++ [Ev.download true, Ev.uploadRes true,
            Ev.write ⟨statusOf store, Status.DONE, some duration, none⟩ blobs',
            Ev.ack]
          acked := true, crashed := false }

/-- The atomic-claim step of the loop (aws_worker.py:135-145): a raise from
`claim_job` is re-raised (the iteration crashes); a condition failure acks
and skips; a won claim proceeds to the processing block. -/
def afterPreCheck (env : WEnv) (msg : Msg) (store : Option Record)
    (blobs : List String) (pre : List Ev) : WOut :=
  if env.claimFail then
    { store := store, blobs := blobs, trace := pre ++ [Ev.claim none]
      acked := false, crashed := true }
  else
    if (claim_job_cas env.workerId env.tClaim store).1 then
      processJob env msg (claim_job_cas env.workerId env.tClaim store).2 blobs
        (pre ++ [Ev.claim (some true),
          Ev.write ⟨statusOf store, Status.PROCESSING, none, none⟩ blobs])
    else
      { store := (claim_job_cas env.workerId env.tClaim store).2
        blobs := blobs
        trace := pre ++ [Ev.claim (some false), Ev.ack]
        acked := true, crashed := false }

/-- One iteration of the worker loop for a received message
(aws_worker.py:115-180): idempotency pre-check (a raise from the check is
caught and the loop proceeds to the claim), then claim, then processing. -/
def workerIter (env : WEnv) (msg : Msg) (store : Option Record)
    (blobs : List String) : WOut :=
  if env.headFail then
    afterPreCheck env msg store blobs [Ev.head none]
  else if msg.result_key ∈ blobs then
    { store := store, blobs := blobs
      trace := [Ev.head (some true), Ev.ack]
      acked := true, crashed := false }
  else
    afterPreCheck env msg store blobs [Ev.head (some false)]

theorem claim_job_cas_false_id (w : String) (t : Int) (s : Option Record)
    (h : (claim_job_cas w t s).1 = false) : (claim_job_cas w t s).2 = s := by
  cases s with
  | none => simp [claim_job_cas]
  | some r =>
      by_cases hq : r.status = Status.QUEUED
      · simp [claim_job_cas, hq] at h
      · simp [claim_job_cas, hq]

/-- Claim C2: when the pre-check itself does not raise and the result blob
is present, the worker acks and stops: record and blob store untouched, no
claim attempted. -/
theorem precheck_hit_ack_only (env : WEnv) (msg : Msg) (store : Option Record)
    (blobs : List String) (hh : env.headFail = false)
    (hb : msg.result_key ∈ blobs) :
    (workerIter env msg store blobs).store = store ∧
    (workerIter env msg store blobs).blobs = blobs ∧
    (workerIter env msg store blobs).acked = true ∧
    (workerIter env msg store blobs).trace = [Ev.head (some true), Ev.ack] ∧
    (∀ b, Ev.claim b ∉ (workerIter env msg store blobs).trace) := by
  refine ⟨?_, ?_, ?_, ?_, ?_⟩ <;> simp [workerIter, hh, hb]

/-- A message and environments used as concrete instances below. -/
def msgW : Msg :=
  { job_id := "j1", bucket := "bkt"
    input_key := "uploads/j1/scan.png"
    result_key := "results/j1/result.json" }

def envOkW : WEnv :=
  { workerId := "wA", headFail := false, claimFail := false
    downloadFail := false, downloadExc := ("ClientError", "download boom")
    uploadFail := false, uploadExc := ("ClientError", "upload boom")
    setDoneFail := false, setDoneExc := ("ClientError", "done boom")
    setFailedFail := false
    tClaim := 10, t0 := 11, t1 := 13, tDoneW := 14, tFailW := 15 }

def recQueued : Record := { status := Status.QUEUED, updated_at := 0 }

def recDone : Record := { status := Status.DONE, updated_at := 0 }

/-- Witness for C2: a DONE job's result blob is present; the worker only
acks. -/
theorem precheck_hit_ack_only_witness :
    envOkW.headFail = false ∧ msgW.result_key ∈ [msgW.result_key] ∧
    (workerIter envOkW msgW (some recDone) [msgW.result_key]).store =
      some recDone ∧
    (workerIter envOkW msgW (some recDone) [msgW.result_key]).trace =
      [Ev.head (some true), Ev.ack] :=
  ⟨rfl, by simp,
   (precheck_hit_ack_only envOkW msgW (some recDone) [msgW.result_key] rfl
     (by simp)).1,
   (precheck_hit_ack_only envOkW msgW (some recDone) [msgW.result_key] rfl
     (by simp)).2.2.2.1⟩

/-- Claim C4: a condition failure on the claim is benign (ack, skip, no
retry, no crash, record untouched), while any other error raised by the
claim call propagates out of the iteration uncaught (no ack, no write). -/
theorem claim_condfail_benign_other_fatal :
    (∀ (env : WEnv) (msg : Msg) (store : Option Record) (blobs : List String),
      env.headFail = false → msg.result_key ∉ blobs →
      env.claimFail = false →
      (claim_job_cas env.workerId env.tClaim store).1 = false →
      (workerIter env msg store blobs).acked = true ∧
      (workerIter env msg store blobs).crashed = false ∧
      (workerIter env msg store blobs).store = store ∧
      (workerIter env msg store blobs).trace =
        [Ev.head (some false), Ev.claim (some false), Ev.ack]) ∧
    (∀ (env : WEnv) (msg : Msg) (store : Option Record) (blobs : List String),
      env.headFail = false → msg.result_key ∉ blobs →
      env.claimFail = true →
      (workerIter env msg store blobs).crashed = true ∧
      (workerIter env msg store blobs).acked = false ∧
      (workerIter env msg store blobs).store = store ∧
      (workerIter env msg store blobs).trace =
        [Ev.head (some false), Ev.claim none]) := by
  constructor
  · intro env msg store blobs hh hb hc hcas
    have hid := claim_job_cas_false_id env.workerId env.tClaim store hcas
    refine ⟨?_, ?_, ?_, ?_⟩ <;>
      simp [workerIter, afterPreCheck, hh, hb, hc, hcas, hid]
  · intro env msg store blobs hh hb hc
    refine ⟨?_, ?_, ?_, ?_⟩ <;>
      simp [workerIter, afterPreCheck, hh, hb, hc]

def envClaimCrash : WEnv := { envOkW with claimFail := true }

/-- Witness for C4: a condition failure on a DONE record acks and skips; an
infra error during the claim crashes the iteration without acking. -/
theorem claim_condfail_benign_other_fatal_witness :
    ((claim_job_cas envOkW.workerId envOkW.tClaim (some recDone)).1 = false ∧
      (workerIter envOkW msgW (some recDone) []).acked = true ∧
      (workerIter envOkW msgW (some recDone) []).crashed = false) ∧
    ((workerIter envClaimCrash msgW (some recQueued) []).crashed = true ∧
      (workerIter envClaimCrash msgW (some recQueued) []).acked = false) :=
  ⟨⟨by decide,
    (claim_condfail_benign_other_fatal.1 envOkW msgW (some recDone) [] rfl
      (by simp) rfl (by decide)).1,
    (claim_condfail_benign_other_fatal.1 envOkW msgW (some recDone) [] rfl
      (by simp) rfl (by decide)).2.1⟩,
   ⟨(claim_condfail_benign_other_fatal.2 envClaimCrash msgW (some recQueued) []
      rfl (by simp) rfl).1,
    (claim_condfail_benign_other_fatal.2 envClaimCrash msgW (some recQueued) []
      rfl (by simp) rfl).2.1⟩⟩

/-- Claim C9: for a job already DONE with its result blob present, re-running
the worker sequence never mutates the record or the blob store, and (when no
infrastructure error crashes the iteration) only acks. -/
theorem done_rerun_noop (env : WEnv) (msg : Msg) (store : Option Record)
    (blobs : List String) (r : Record) (hs : store = some r)
    (hst : r.status = Status.DONE) (hb : msg.result_key ∈ blobs) :
    (workerIter env msg store blobs).store = store ∧
    (workerIter env msg store blobs).blobs = blobs ∧
    (∀ w bs, Ev.write w bs ∉ (workerIter env msg store blobs).trace) ∧
    ((workerIter env msg store blobs).crashed = false →
      (workerIter env msg store blobs).acked = true) := by
  subst hs
  by_cases hh : env.headFail
  · by_cases hc : env.claimFail
    · refine ⟨?_, ?_, ?_, ?_⟩ <;> simp [workerIter, afterPreCheck, hh, hc]
    · refine ⟨?_, ?_, ?_, ?_⟩ <;>
        simp [workerIter, afterPreCheck, claim_job_cas, hh, hc, hst]
  · refine ⟨?_, ?_, ?_, ?_⟩ <;> simp [workerIter, hh, hb]

/-- Witness for C9: rerun on a DONE record with the blob present. -/
theorem done_rerun_noop_witness :
    recDone.status = Status.DONE ∧
    (workerIter envOkW msgW (some recDone) [msgW.result_key]).store =
      some recDone ∧
    (workerIter envOkW msgW (some recDone) [msgW.result_key]).blobs =
      [msgW.result_key] :=
  ⟨rfl,
   (done_rerun_noop envOkW msgW (some recDone) [msgW.result_key] recDone rfl
     rfl (by simp)).1,
   (done_rerun_noop envOkW msgW (some recDone) [msgW.result_key] recDone rfl
     rfl (by simp)).2.1⟩

/-- The durable outcomes C3 lists as the only licences for an ack: the
record written DONE, a pre-check hit, a lost claim, or the terminal FAILED
outcome written to the record. -/
def durableMark : Ev → Bool
  | Ev.head (some true) => true
  | Ev.claim (some false) => true
  | Ev.write w _ =>
      decide (w.new = Status.DONE) || decide (w.new = Status.FAILED)
  | _ => false

/-- As `durableMark`, but also counting a raised (hence swallowed)
best-effort attempt to write FAILED. -/
def attemptMark : Ev → Bool
  | Ev.writeErr Status.FAILED => true
  | e => durableMark e

/-- Scans a trace checking that every ack is preceded by a marked event. -/
def acksAfter (mark : Ev → Bool) : Bool → List Ev → Bool
  | _, [] => true
  | seen, Ev.ack :: rest => seen && acksAfter mark seen rest
  | seen, e :: rest => acksAfter mark (seen || mark e) rest

def envFailTwice : WEnv :=
  { envOkW with downloadFail := true, setFailedFail := true }

/-- Counterexample to C3: the claim is won, the download raises, and the
best-effort FAILED write itself raises (it is swallowed); the worker acks
although none of the four durable outcomes the claim lists holds. -/
theorem ack_before_durable_counterexample :
    (workerIter envFailTwice msgW (some recQueued) []).trace =
      [Ev.head (some false), Ev.claim (some true),
       Ev.write ⟨some Status.QUEUED, Status.PROCESSING, none, none⟩ [],
       Ev.download false, Ev.writeErr Status.FAILED, Ev.ack] ∧
    acksAfter durableMark false
      (workerIter envFailTwice msgW (some recQueued) []).trace = false := by
  constructor <;> rfl

/-- The seen-a-mark accumulator of `acksAfter` after scanning a list. -/
def seenFold (mark : Ev → Bool) : Bool → List Ev → Bool
  | seen, [] => seen
  | seen, Ev.ack :: rest => seenFold mark seen rest
  | seen, e :: rest => seenFold mark (seen || mark e) rest

theorem acksAfter_append (mark : Ev → Bool) (seen : Bool) (l1 l2 : List Ev) :
    acksAfter mark seen (l1 ++ l2) =
      (acksAfter mark seen l1 && acksAfter mark (seenFold mark seen l1) l2) := by
  induction l1 generalizing seen with
  | nil => simp [acksAfter, seenFold]
  | cons e rest ih =>
      cases e <;> simp [acksAfter, seenFold, ih, Bool.and_assoc]

theorem failRecord_acks (env : WEnv) (err : String) (store : Option Record)
    (blobs : List String) (pre : List Ev) (seen : Bool)
    (h : acksAfter attemptMark seen pre = true) :
    acksAfter attemptMark seen (failRecord env err store blobs pre).trace =
      true := by
  unfold failRecord
  split <;> simp [acksAfter_append, h, acksAfter, attemptMark, durableMark]

theorem processJob_acks (env : WEnv) (msg : Msg) (store : Option Record)
    (blobs : List String) (pre : List Ev) (seen : Bool)
    (h : acksAfter attemptMark seen pre = true) :
    acksAfter attemptMark seen (processJob env msg store blobs pre).trace =
      true := by
  unfold processJob
  split
  · exact failRecord_acks _ _ _ _ _ _
      (by simp [acksAfter_append, h, acksAfter, attemptMark, durableMark])
  · split
    · exact failRecord_acks _ _ _ _ _ _
        (by simp [acksAfter_append, h, acksAfter, attemptMark, durableMark])
    · split
      · exact failRecord_acks _ _ _ _ _ _
          (by simp [acksAfter_append, h, acksAfter, attemptMark, durableMark])
      · simp [acksAfter_append, h, acksAfter, attemptMark, durableMark]

theorem afterPreCheck_acks (env : WEnv) (msg : Msg) (store : Option Record)
    (blobs : List String) (pre : List Ev) (seen : Bool)
    (h : acksAfter attemptMark seen pre = true) :
    acksAfter attemptMark seen (afterPreCheck env msg store blobs pre).trace =
      true := by
  unfold afterPreCheck
  split
  · simp [acksAfter_append, h, acksAfter, attemptMark, durableMark]
  · split
    · exact processJob_acks _ _ _ _ _ _
        (by simp [acksAfter_append, h, acksAfter, attemptMark, durableMark])
    · simp [acksAfter_append, h, acksAfter, attemptMark, durableMark]

/-- Claim C3 as amended: every ack in a worker iteration happens only after
a durable outcome is known — record written DONE, pre-check hit, claim lost,
FAILED written — or after the best-effort attempt to write the terminal
FAILED outcome (which the code swallows when it raises). -/
theorem ack_after_durable_or_attempt (env : WEnv) (msg : Msg)
    (store : Option Record) (blobs : List String) :
    acksAfter attemptMark false (workerIter env msg store blobs).trace =
      true := by
  unfold workerIter
  split
  · exact afterPreCheck_acks _ _ _ _ _ _
      (by simp [acksAfter, attemptMark, durableMark])
  · split
    · simp [acksAfter, attemptMark, durableMark]
    · exact afterPreCheck_acks _ _ _ _ _ _
        (by simp [acksAfter, attemptMark, durableMark])

/-
Submission/status API, src/hybrid-ocr-api/app.py.  Config values read from
the environment are strings with "" standing for an unset variable (Python
treats both None and "" as falsy in the checks the code performs).
-/

/-- HTTP responses of `create_job`; `crashed` is an exception escaping the
handler (Flask's generic 500, carrying nothing from the handler). -/
inductive ApiResp where
  | created (job_id : String)
  | badRequest (err : String)
  | unauthorized
  | serverError (err : String) (job_id : Option String)
  | crashed
deriving DecidableEq, Repr

/-- Oracle and configuration for one `create_job` request: config strings,
the generated `uuid4` job id, the two `now_ms` readings, and the outcome of
each fallible AWS call (`true` = the call raised `ClientError`). -/
structure AEnv where
  apiKey : String
  bucket : String
  sqsUrl : String
  ddbTable : String
  region : String
  jobId : String
  ts : Int
  tFail : Int
  uploadFail : Bool
  putInfraFail : Bool
  deleteFail : Bool
  sendFail : Bool
  sendExc : String
  markFailedFail : Bool
deriving Repr

/-- One multipart request: the `x-api-key` header (missing modelled as "",
as `headers.get` defaults), whether a `file` field is present, and the
file's name, mimetype and size. -/
structure FileReq where
  header_api_key : String
  hasFile : Bool
  filename : String
  mimetype : String
  size : Nat
deriving DecidableEq, Repr

/-- Effects of one `create_job` request: response, final record and blob
store, enqueued messages, and the record writes issued. -/
structure AOut where
  resp : ApiResp
  store : Option Record
  blobs : List String
  sent : List Msg
  writes : List WriteEv
deriving Repr

/-- Embedding of `require_api_key` (app.py:22-26): an unset (empty) configured key
rejects everything; otherwise the header must equal the key exactly. -/
def require_api_key (apiKey header : String) : Bool :=
  if apiKey = "" then false else header == apiKey

/-- Embedding of `validate_file` (app.py:28-37). -/
def allowedTypes : List String :=
  ["application/pdf", "image/png", "image/jpeg"]

def validate_file (mimetype : String) (size : Nat) : Bool × Option String :=
  if mimetype ∉ allowedTypes then
    (false, some ("unsupported content-type: " ++ mimetype))
  else if size > 25 * 1024 * 1024 then
    (false, some ("file too large (max 25MB)"))
  else (true, none)

/-- Filename sanitization of app.py:55: default an empty or missing name
to upload, then replace every slash with an underscore. -/
def sanitizeFilename (fn : String) : String :=
  (if fn = "" then "upload" else fn).replace ("/") ("_")

def input_key_of (env : AEnv) (req : FileReq) : String :=
  "uploads/" ++ env.jobId ++ "/" ++ sanitizeFilename req.filename

def result_key_of (env : AEnv) : String :=
  "results/" ++ env.jobId ++ "/result.json"

/-- Embedding of `create_job` (app.py:39-109): auth, config and validation checks, then
blob upload, conditional record insert (`attribute_not_exists(job_id)` —
fails on a pre-existing record or an infra error, both `ClientError`), with
compensation delete of the blob on insert failure, then enqueue, with an
unconditional QUEUED→FAILED record update on enqueue failure (that update
itself is not wrapped, so its raise escapes the handler). -/
def create_job (env : AEnv) (req : FileReq) (store : Option Record)
    (blobs : List String) : AOut :=
  if require_api_key env.apiKey req.header_api_key = false then
    { resp := ApiResp.unauthorized, store := store, blobs := blobs
      sent := [], writes := [] }
  else if env.bucket = "" ∨ env.sqsUrl = "" ∨ env.ddbTable = "" ∨
      env.region = "" then
    { resp := ApiResp.serverError ("server misconfigured (missing env)") none
      store := store, blobs := blobs, sent := [], writes := [] }
  else if req.hasFile = false then
    { resp := ApiResp.badRequest ("file is required (multipart field: file)")
      store := store, blobs := blobs, sent := [], writes := [] }
  else if (validate_file req.mimetype req.size).1 = false then
    { resp := ApiResp.badRequest
        ((validate_file req.mimetype req.size).2.getD (""))
      store := store, blobs := blobs, sent := [], writes := [] }
  else if env.uploadFail then
    { resp := ApiResp.serverError ("s3 upload failed") none
      store := store, blobs := blobs, sent := [], writes := [] }
  else if store.isSome ∨ env.putInfraFail then
    { resp := ApiResp.serverError ("ddb put failed") none
      store := store
      blobs := if env.deleteFail then putKey (input_key_of env req) blobs
               else delKey (input_key_of env req)
                 (putKey (input_key_of env req) blobs)
      sent := [], writes := [] }
  else
    let record : Record :=
      { status := Status.QUEUED
        input_s3_key := some (input_key_of env req)
        result_s3_key := some (result_key_of env)
        original_filename := some (sanitizeFilename req.filename)
        content_type := some req.mimetype
        created_at := some env.ts
        updated_at := env.ts }
    if env.sendFail then
      if env.markFailedFail then
        { resp := ApiResp.crashed, store := some record
          blobs := putKey (input_key_of env req) blobs, sent := []
          writes := [⟨none, Status.QUEUED, none, none⟩] }
      else
        { resp := ApiResp.serverError ("sqs send failed") (some env.jobId)
          store := some { record with
            status := Status.FAILED
            error_message := some ("sqs send failed: " ++ env.sendExc)
            updated_at := env.tFail }
          blobs := putKey (input_key_of env req) blobs
          sent := []
          writes := [⟨none, Status.QUEUED, none, none⟩,
            ⟨some Status.QUEUED, Status.FAILED, none,
              some ("sqs send failed: " ++ env.sendExc)⟩] }
    else
      { resp := ApiResp.created env.jobId
        store := some record
        blobs := putKey (input_key_of env req) blobs
        sent := [{ job_id := env.jobId, bucket := env.bucket
                   input_key := input_key_of env req
                   result_key := result_key_of env }]
        writes := [⟨none, Status.QUEUED, none, none⟩] }

/-- Responses of `get_job` (app.py:111-136). -/
inductive GetResp where
  | unauthorized
  | notFound
  | found (status : Status) (error_message : Option String)
      (hasDownloadUrl : Bool)
deriving DecidableEq, Repr

/-- Python truthiness of the optional result key. -/
def truthyKey : Option String → Bool
  | some s => s != ""
  | none => false

/-- Embedding of `get_job` (app.py:111-136): auth, then read the record; a presigned download URL is
attached exactly when status is DONE and the result key is truthy.
Read-only: it takes the store and returns only a response. -/
def get_job (apiKey header : String) (store : Option Record) : GetResp :=
  if require_api_key apiKey header = false then GetResp.unauthorized
  else
    match store with
    | none => GetResp.notFound
    | some r =>
        GetResp.found r.status r.error_message
          (decide (r.status = Status.DONE) && truthyKey r.result_s3_key)

/-- Embedding of `health` (app.py:138-140): unconditionally 200 ok; it never
reads the request, so it takes no key. -/
def health_endpoint (_header : String) : Nat × Bool := (200, true)

/-- Claim C10: with the configured key unset or a mismatched `x-api-key`
header, POST /jobs and GET /jobs/<id> return 401 with no side effects; the
health endpoint answers 200 for every request. -/
theorem api_key_gate (env : AEnv) (req : FileReq) (store : Option Record)
    (blobs : List String)
    (h : env.apiKey = "" ∨ req.header_api_key ≠ env.apiKey) :
    ((create_job env req store blobs).resp = ApiResp.unauthorized ∧
      (create_job env req store blobs).store = store ∧
      (create_job env req store blobs).blobs = blobs ∧
      (create_job env req store blobs).sent = [] ∧
      (create_job env req store blobs).writes = []) ∧
    get_job env.apiKey req.header_api_key store = GetResp.unauthorized ∧
    (∀ hdr, health_endpoint hdr = (200, true)) := by
  have hk : require_api_key env.apiKey req.header_api_key = false := by
    rcases h with h | h
    · simp [require_api_key, h]
    · by_cases hk0 : env.apiKey = "" <;> simp [require_api_key, hk0, h]
  refine ⟨?_, ?_, fun hdr => rfl⟩
  · refine ⟨?_, ?_, ?_, ?_, ?_⟩ <;> simp [create_job, hk]
  · simp [get_job, hk]

def envApi : AEnv :=
  { apiKey := "secret", bucket := "bkt", sqsUrl := "q", ddbTable := "tbl"
    region := "ap-southeast-1", jobId := "j1", ts := 100, tFail := 101
    uploadFail := false, putInfraFail := false, deleteFail := false
    sendFail := false, sendExc := "boom", markFailedFail := false }

def reqGood : FileReq :=
  { header_api_key := "secret", hasFile := true, filename := "scan.png"
    mimetype := "image/png", size := 1024 }

def reqBadKey : FileReq := { reqGood with header_api_key := "wrong" }

/-- Witness for C10: a mismatched header is rejected everywhere but health. -/
theorem api_key_gate_witness :
    (envApi.apiKey = "" ∨ reqBadKey.header_api_key ≠ envApi.apiKey) ∧
    (create_job envApi reqBadKey none []).resp = ApiResp.unauthorized ∧
    get_job envApi.apiKey reqBadKey.header_api_key none =
      GetResp.unauthorized :=
  ⟨Or.inr (by decide),
   (api_key_gate envApi reqBadKey none [] (Or.inr (by decide))).1.1,
   (api_key_gate envApi reqBadKey none [] (Or.inr (by decide))).2.1⟩

/-- Claim C7: a submission hitting a pre-existing record (the conditional
insert fails) leaves the record untouched, removes the uploaded input blob
(when the compensation delete call itself does not raise), enqueues
nothing, and returns an error. -/
theorem duplicate_insert_compensated (env : AEnv) (req : FileReq)
    (r : Record) (blobs : List String)
    (hk : require_api_key env.apiKey req.header_api_key = true)
    (hcfg : ¬(env.bucket = "" ∨ env.sqsUrl = "" ∨ env.ddbTable = "" ∨
      env.region = ""))
    (hf : req.hasFile = true)
    (hv : (validate_file req.mimetype req.size).1 = true)
    (hu : env.uploadFail = false)
    (hd : env.deleteFail = false) :
    (create_job env req (some r) blobs).resp =
      ApiResp.serverError ("ddb put failed") none ∧
    (create_job env req (some r) blobs).store = some r ∧
    input_key_of env req ∉ (create_job env req (some r) blobs).blobs ∧
    (create_job env req (some r) blobs).sent = [] ∧
    (create_job env req (some r) blobs).writes = [] := by
  refine ⟨?_, ?_, ?_, ?_, ?_⟩ <;>
    simp [create_job, hk, hcfg, hf, hv, hu, hd, delKey, List.mem_filter]

/-- Witness for C7: resubmission while a record exists. -/
theorem duplicate_insert_compensated_witness :
    require_api_key envApi.apiKey reqGood.header_api_key = true ∧
    (create_job envApi reqGood (some recQueued) []).store = some recQueued ∧
    input_key_of envApi reqGood ∉
      (create_job envApi reqGood (some recQueued) []).blobs :=
  ⟨by decide,
   (duplicate_insert_compensated envApi reqGood recQueued [] (by decide)
     (by decide) rfl (by decide) rfl rfl).2.1,
   (duplicate_insert_compensated envApi reqGood recQueued [] (by decide)
     (by decide) rfl (by decide) rfl rfl).2.2.1⟩

def envSendFail : AEnv := { envApi with sendFail := true }

/-- Claim C8: when the insert succeeds and the enqueue raises, the record is
moved QUEUED→FAILED with an error message naming the enqueue failure, the
input blob stays, and the caller gets the 5xx response carrying the job id
(provided the FAILED update itself does not raise, it being unguarded). -/
theorem enqueue_failure_marks_failed (env : AEnv) (req : FileReq)
    (blobs : List String)
    (hk : require_api_key env.apiKey req.header_api_key = true)
    (hcfg : ¬(env.bucket = "" ∨ env.sqsUrl = "" ∨ env.ddbTable = "" ∨
      env.region = ""))
    (hf : req.hasFile = true)
    (hv : (validate_file req.mimetype req.size).1 = true)
    (hu : env.uploadFail = false)
    (hp : env.putInfraFail = false)
    (hs : env.sendFail = true)
    (hm : env.markFailedFail = false) :
    (create_job env req none blobs).resp =
      ApiResp.serverError ("sqs send failed") (some env.jobId) ∧
    (∃ r, (create_job env req none blobs).store = some r ∧
      r.status = Status.FAILED ∧
      r.error_message = some ("sqs send failed: " ++ env.sendExc)) ∧
    input_key_of env req ∈ (create_job env req none blobs).blobs ∧
    (create_job env req none blobs).writes =
      [⟨none, Status.QUEUED, none, none⟩,
       ⟨some Status.QUEUED, Status.FAILED, none,
         some ("sqs send failed: " ++ env.sendExc)⟩] := by
  refine ⟨?_, ?_, ?_, ?_⟩ <;>
    simp [create_job, hk, hcfg, hf, hv, hu, hp, hs, hm, putKey]
  · by_cases hmem : input_key_of env req ∈ blobs <;> simp [hmem]

/-- Witness for C8: a concrete submission whose enqueue raises. -/
theorem enqueue_failure_marks_failed_witness :
    envSendFail.sendFail = true ∧
    (create_job envSendFail reqGood none []).resp =
      ApiResp.serverError ("sqs send failed") (some ("j1")) ∧
    input_key_of envSendFail reqGood ∈
      (create_job envSendFail reqGood none []).blobs :=
  ⟨rfl,
   (enqueue_failure_marks_failed envSendFail reqGood [] (by decide)
     (by decide) rfl (by decide) rfl rfl rfl rfl).1,
   (enqueue_failure_marks_failed envSendFail reqGood [] (by decide)
     (by decide) rfl (by decide) rfl rfl rfl rfl).2.2.1⟩

/-
Characterization of the record writes a worker iteration can issue, used
for the status-edge and DONE/FAILED invariants.
-/

theorem fmtExc_ne_empty (e : String × String) : fmtExc e ≠ "" := by
  intro h
  have hl : (fmtExc e).length = 0 := by rw [h]; rfl
  simp [fmtExc, String.length_append] at hl
  exact absurd hl.1.2 (by decide)

theorem mem_putKey (k : String) (l : List String) : k ∈ putKey k l := by
  unfold putKey
  split
  · assumption
  · exact List.mem_cons_self k l

theorem claim_job_cas_true (w : String) (t : Int) (s : Option Record)
    (h : (claim_job_cas w t s).1 = true) :
    ∃ r, s = some r ∧ r.status = Status.QUEUED ∧
      (claim_job_cas w t s).2 = some { r with
        status := Status.PROCESSING, worker_id := some w
        processing_started_at := some t, updated_at := t } := by
  cases s with
  | none => simp [claim_job_cas] at h
  | some r =>
      by_cases hq : r.status = Status.QUEUED
      · exact ⟨r, rfl, hq, by simp [claim_job_cas, hq]⟩
      · simp [claim_job_cas, hq] at h

theorem failRecord_writes (env : WEnv) (err : String) (store : Option Record)
    (blobs : List String) (pre : List Ev) (w : WriteEv) (bs : List String)
    (h : Ev.write w bs ∈ (failRecord env err store blobs pre).trace) :
    Ev.write w bs ∈ pre ∨
      (w = ⟨statusOf store, Status.FAILED, none, some err⟩ ∧ bs = blobs) := by
  unfold failRecord at h
  split at h <;> simp at h <;> tauto

theorem processJob_writes (env : WEnv) (msg : Msg) (store : Option Record)
    (blobs : List String) (pre : List Ev) (w : WriteEv) (bs : List String)
    (h : Ev.write w bs ∈ (processJob env msg store blobs pre).trace) :
    Ev.write w bs ∈ pre ∨
      (w.old = statusOf store ∧ w.new = Status.FAILED ∧ w.dur = none ∧
        ∃ m, w.err = some m ∧ m ≠ "") ∨
      (w = ⟨statusOf store, Status.DONE, some (env.t1 - env.t0), none⟩ ∧
        bs = putKey msg.result_key blobs) := by
  unfold processJob at h
  split at h
  · rcases failRecord_writes _ _ _ _ _ _ _ h with h' | ⟨hw, -⟩
    · simp at h'
      tauto
    · subst hw
      exact Or.inr (Or.inl ⟨rfl, rfl, rfl, _, rfl, fmtExc_ne_empty _⟩)
  · split at h
    · rcases failRecord_writes _ _ _ _ _ _ _ h with h' | ⟨hw, -⟩
      · simp at h'
        tauto
      · subst hw
        exact Or.inr (Or.inl ⟨rfl, rfl, rfl, _, rfl, fmtExc_ne_empty _⟩)
    · split at h
      · rcases failRecord_writes _ _ _ _ _ _ _ h with h' | ⟨hw, -⟩
        · simp at h'
          tauto
        · subst hw
          exact Or.inr (Or.inl ⟨rfl, rfl, rfl, _, rfl, fmtExc_ne_empty _⟩)
      · simp at h
        tauto

theorem afterPreCheck_writes (env : WEnv) (msg : Msg) (store : Option Record)
    (blobs : List String) (pre : List Ev) (w : WriteEv) (bs : List String)
    (h : Ev.write w bs ∈ (afterPreCheck env msg store blobs pre).trace) :
    Ev.write w bs ∈ pre ∨
      (∃ r, store = some r ∧ r.status = Status.QUEUED ∧
        w = ⟨some Status.QUEUED, Status.PROCESSING, none, none⟩ ∧
        bs = blobs) ∨
      (w.old = some Status.PROCESSING ∧ w.new = Status.FAILED ∧
        w.dur = none ∧ ∃ m, w.err = some m ∧ m ≠ "") ∨
      (w.old = some Status.PROCESSING ∧ w.new = Status.DONE ∧
        w.dur = some (env.t1 - env.t0) ∧ msg.result_key ∈ bs) := by
  unfold afterPreCheck at h
  split at h
  · simp at h
    tauto
  · split at h
    next hcas =>
      obtain ⟨r, hs, hq, hc2⟩ :=
        claim_job_cas_true env.workerId env.tClaim store hcas
      have hold : statusOf (claim_job_cas env.workerId env.tClaim store).2 =
          some Status.PROCESSING := by
        rw [hc2]; rfl
      rcases processJob_writes _ _ _ _ _ _ _ h with h' | hfail | ⟨hw, hb⟩
      · simp at h'
        rcases h' with h' | ⟨hw, hb⟩
        · exact Or.inl h'
        · refine Or.inr (Or.inl ⟨r, hs, hq, ?_, hb⟩)
          rw [hw, hs]
          simp [statusOf, hq]
      · rw [hold] at hfail
        exact Or.inr (Or.inr (Or.inl hfail))
      · subst hw hb
        refine Or.inr (Or.inr (Or.inr ⟨?_, rfl, rfl, mem_putKey _ _⟩))
        exact hold
    next =>
      simp at h
      tauto

theorem workerIter_writes (env : WEnv) (msg : Msg) (store : Option Record)
    (blobs : List String) (w : WriteEv) (bs : List String)
    (h : Ev.write w bs ∈ (workerIter env msg store blobs).trace) :
    (∃ r, store = some r ∧ r.status = Status.QUEUED ∧
      w = ⟨some Status.QUEUED, Status.PROCESSING, none, none⟩) ∨
    (w.old = some Status.PROCESSING ∧ w.new = Status.FAILED ∧
      ∃ m, w.err = some m ∧ m ≠ "") ∨
    (w.old = some Status.PROCESSING ∧ w.new = Status.DONE ∧
      w.dur = some (env.t1 - env.t0) ∧ msg.result_key ∈ bs) := by
  unfold workerIter at h
  split at h
  · rcases afterPreCheck_writes _ _ _ _ _ _ _ h with h' | ⟨r, hs, hq, hw, -⟩ |
      hfail | hdone
    · simp at h'
    · exact Or.inl ⟨r, hs, hq, hw⟩
    · exact Or.inr (Or.inl ⟨hfail.1, hfail.2.1, hfail.2.2.2⟩)
    · exact Or.inr (Or.inr hdone)
  · split at h
    · simp at h
    · rcases afterPreCheck_writes _ _ _ _ _ _ _ h with h' | ⟨r, hs, hq, hw, -⟩ |
        hfail | hdone
      · simp at h'
      · exact Or.inl ⟨r, hs, hq, hw⟩
      · exact Or.inr (Or.inl ⟨hfail.1, hfail.2.1, hfail.2.2.2⟩)
      · exact Or.inr (Or.inr hdone)

theorem sqsErr_ne_empty (s : String) : ("sqs send failed: " ++ s) ≠ "" := by
  intro h
  have hl : ("sqs send failed: " ++ s).length = 0 := by rw [h]; rfl
  simp [String.length_append] at hl
  exact absurd hl.1 (by decide)

theorem create_job_writes (env : AEnv) (req : FileReq)
    (store : Option Record) (blobs : List String) (w : WriteEv)
    (h : w ∈ (create_job env req store blobs).writes) :
    w = ⟨none, Status.QUEUED, none, none⟩ ∨
      w = ⟨some Status.QUEUED, Status.FAILED, none,
        some ("sqs send failed: " ++ env.sendExc)⟩ := by
  unfold create_job at h
  repeat' split at h
  all_goals simp_all

/-- The status edges C5 claims are the only ones: QUEUED→PROCESSING,
PROCESSING→DONE, PROCESSING→FAILED. -/
def specEdges : List (Option Status × Status) :=
  [(some Status.QUEUED, Status.PROCESSING),
   (some Status.PROCESSING, Status.DONE),
   (some Status.PROCESSING, Status.FAILED)]

/-- Counterexample to C5: when the enqueue raises after the insert, the
submission service moves the record QUEUED→FAILED, an edge outside the
claimed three; and `ddb_set_status`, the primitive performing the
PROCESSING→DONE/FAILED transitions, imposes no condition at all — applied
to a DONE record it happily writes FAILED. -/
theorem status_edges_counterexample :
    ((create_job envSendFail reqGood none []).writes.map
        (fun w => (w.old, w.new)) =
      [(none, Status.QUEUED), (some Status.QUEUED, Status.FAILED)]) ∧
    ((some Status.QUEUED, Status.FAILED) ∉ specEdges) ∧
    (∃ r', ddb_set_status Status.FAILED none (some ("late write")) 7
        (some recDone) = some r' ∧ recDone.status = Status.DONE ∧
        r'.status = Status.FAILED) := by
  exact ⟨by decide, by decide, ⟨_, rfl, rfl, rfl⟩⟩

/-- Claim C5 as amended: the status transitions the two programs issue are
QUEUED→PROCESSING (worker claim), PROCESSING→DONE and PROCESSING→FAILED
(worker outcome writes), plus record creation as QUEUED and QUEUED→FAILED
by the submission service on enqueue failure; of these only the insert and
the claim are store-enforced conditional updates (a successful claim
implies the record was QUEUED), while the outcome writes are unconditional
and guarded only by the program's control flow. -/
theorem status_edges_amended :
    (∀ (env : WEnv) (msg : Msg) (store : Option Record) (blobs : List String)
        (w : WriteEv) (bs : List String),
      Ev.write w bs ∈ (workerIter env msg store blobs).trace →
      (w.old, w.new) ∈ specEdges) ∧
    (∀ (env : AEnv) (req : FileReq) (store : Option Record)
        (blobs : List String) (w : WriteEv),
      w ∈ (create_job env req store blobs).writes →
      (w.old, w.new) ∈ [((none : Option Status), Status.QUEUED),
        (some Status.QUEUED, Status.FAILED)]) ∧
    (∀ (wk : String) (t : Int) (s : Option Record),
      (claim_job_cas wk t s).1 = true → statusOf s = some Status.QUEUED) := by
  refine ⟨?_, ?_, ?_⟩
  · intro env msg store blobs w bs h
    rcases workerIter_writes env msg store blobs w bs h with
      ⟨r, -, -, hw⟩ | ⟨ho, hn, -⟩ | ⟨ho, hn, -, -⟩
    · subst hw
      simp [specEdges]
    · rw [ho, hn]
      simp [specEdges]
    · rw [ho, hn]
      simp [specEdges]
  · intro env req store blobs w h
    rcases create_job_writes env req store blobs w h with hw | hw <;>
      subst hw <;> simp
  · intro wk t s h
    obtain ⟨r, hs, hq, -⟩ := claim_job_cas_true wk t s h
    rw [hs]
    simp [statusOf, hq]

/-- Witness for the amended C5: the enqueue-failure run's two writes are
among the amended edges, and a concrete successful claim started from
QUEUED. -/
theorem status_edges_amended_witness :
    (⟨none, Status.QUEUED, none, none⟩ : WriteEv) ∈
      (create_job envSendFail reqGood none []).writes ∧
    ((none : Option Status), Status.QUEUED) ∈
      [((none : Option Status), Status.QUEUED),
        (some Status.QUEUED, Status.FAILED)] ∧
    (claim_job_cas ("wA") 1 (some recQueued)).1 = true ∧
    statusOf (some recQueued) = some Status.QUEUED :=
  ⟨by decide,
   status_edges_amended.2.1 envSendFail reqGood none []
     ⟨none, Status.QUEUED, none, none⟩ (by decide),
   by decide,
   status_edges_amended.2.2 ("wA") 1 (some recQueued) (by decide)⟩

/-- Claim C6: a DONE record write carries `duration_ms ≥ 0` (the clock
readings being monotone, as §3 declares of the timestamps) and happens with
the result blob present in the blob store; every FAILED record write —
worker outcome or submission enqueue-failure — carries a non-empty
`error_message`. -/
theorem done_failed_record_invariants :
    (∀ (env : WEnv) (msg : Msg) (store : Option Record) (blobs : List String)
        (w : WriteEv) (bs : List String), env.t0 ≤ env.t1 →
      Ev.write w bs ∈ (workerIter env msg store blobs).trace →
      (w.new = Status.DONE →
        (∃ d, w.dur = some d ∧ 0 ≤ d) ∧ msg.result_key ∈ bs) ∧
      (w.new = Status.FAILED → ∃ m, w.err = some m ∧ m ≠ "")) ∧
    (∀ (env : AEnv) (req : FileReq) (store : Option Record)
        (blobs : List String) (w : WriteEv),
      w ∈ (create_job env req store blobs).writes →
      w.new = Status.FAILED → ∃ m, w.err = some m ∧ m ≠ "") := by
  constructor
  · intro env msg store blobs w bs ht h
    rcases workerIter_writes env msg store blobs w bs h with
      ⟨r, -, -, hw⟩ | ⟨-, hn, hm⟩ | ⟨-, hn, hd, hb⟩
    · subst hw
      exact ⟨fun hc => by simp at hc, fun hc => by simp at hc⟩
    · refine ⟨fun hc => ?_, fun _ => hm⟩
      rw [hn] at hc
      simp at hc
    · refine ⟨fun _ => ⟨⟨env.t1 - env.t0, hd, by omega⟩, hb⟩, fun hc => ?_⟩
      rw [hn] at hc
      simp at hc
  · intro env req store blobs w h hf
    rcases create_job_writes env req store blobs w h with hw | hw
    · subst hw
      simp at hf
    · subst hw
      exact ⟨_, rfl, sqsErr_ne_empty _⟩

/-- Witness for C6: the DONE write of a fully successful worker run carries
`duration_ms = 2 ≥ 0`, with the result blob present in its snapshot. -/
theorem done_failed_record_invariants_witness :
    envOkW.t0 ≤ envOkW.t1 ∧
    Ev.write ⟨some Status.PROCESSING, Status.DONE, some 2, none⟩
        (putKey msgW.result_key [msgW.input_key]) ∈
      (workerIter envOkW msgW (some recQueued) [msgW.input_key]).trace ∧
    ((∃ d, (⟨some Status.PROCESSING, Status.DONE, some 2, none⟩ :
        WriteEv).dur = some d ∧ 0 ≤ d) ∧
      msgW.result_key ∈ putKey msgW.result_key [msgW.input_key]) :=
  ⟨by decide, by decide,
   (done_failed_record_invariants.1 envOkW msgW (some recQueued)
     [msgW.input_key] ⟨some Status.PROCESSING, Status.DONE, some 2, none⟩
     (putKey msgW.result_key [msgW.input_key]) (by decide) (by decide)).1 rfl⟩

end HybridOcr
